import Mathlib

/-!
Verification of the website-cloning backend (`src/backend/app`): a shallow
embedding of the generation pipeline — the job lifecycle in `main.py`
(`process_website_cloning`, `_create_enhanced_html`), and the generator in
`llm_generator.py` (`_get_best_visual_input`, `_validate_screenshot_size`,
`_direct_visual_clone`, `_process_multiple_screenshots`, `_process_image_input`,
`_extract_html_code`, `_create_fallback_html`).

Strings are modelled as `List Char`.  Python `dict.get` semantics over the
scraped-data dict distinguish an absent key, a key bound to `None`, and a key
bound to a value; this is captured by `PyField`.  Network calls (the Anthropic
client, PDF conversion, image decoding) are external collaborators and appear
as function parameters; model requests are logged so that request-counting
properties can be stated.
-/

/-- Python string-method helpers, on `List Char`. -/
def isPySpace (c : Char) : Bool :=
  c = ' ' || c = '\t' || c = '\n' || c = '\r' || c = '\x0b' || c = '\x0c'

/-- Python `str.find(needle)`: index of the first occurrence, `none` when absent. -/
def pyFind (needle : List Char) : List Char → Option Nat
  | [] => if needle.isPrefixOf [] then some 0 else none
  | c :: rest =>
    if needle.isPrefixOf (c :: rest) then some 0
    else (pyFind needle rest).map (· + 1)

/-- Python `str.find(needle, start)`. -/
def pyFindFrom (needle hay : List Char) (start : Nat) : Option Nat :=
  (pyFind needle (hay.drop start)).map (· + start)

/-- Python `needle in hay` (substring containment). -/
def containsSub (needle hay : List Char) : Bool :=
  (pyFind needle hay).isSome

/-- Python `hay[a:b]` for `a ≤ b` within range. -/
def pySlice (hay : List Char) (a b : Nat) : List Char :=
  (hay.drop a).take (b - a)

/-- Python `str.lstrip()`. -/
def lstrip (s : List Char) : List Char := s.dropWhile isPySpace

/-- Python `str.rstrip()`. -/
def rstrip (s : List Char) : List Char := (s.reverse.dropWhile isPySpace).reverse

/-- Python `str.strip()`. -/
def pyStrip (s : List Char) : List Char := rstrip (lstrip s)

/-- The fence marker three-backticks, from `_extract_html_code`. -/
def fence3 : List Char := ("\x60\x60\x60".toList)

/-- The html-tagged fence marker, from `_extract_html_code`. -/
def fenceHtml : List Char := ("\x60\x60\x60html".toList)

/-- The doctype line prepended by `_extract_html_code`. -/
def doctypeLine : List Char := ("<!DOCTYPE html>\n".toList)

/-- First phase of `_extract_html_code`: choose the fenced block (html-tagged
fence first, then any fence, else the whole text) and strip whitespace. -/
def extract_body (response : List Char) : List Char :=
  match pyFind fenceHtml response with
  | some i =>
    match pyFindFrom fence3 response (i + 7) with
    | some e => pyStrip (pySlice response (i + 7) e)
    | none => pyStrip (response.drop (i + 7))
  | none =>
    match pyFind fence3 response with
    | some i =>
      match pyFindFrom fence3 response (i + 3) with
      | some e => pyStrip (pySlice response (i + 3) e)
      | none => pyStrip (response.drop (i + 3))
    | none => pyStrip response

/-- Second phase of `_extract_html_code`: prepend a doctype when the stripped
text does not already start with `<!DOCTYPE` or `<html`. -/
def ensure_doctype (html : List Char) : List Char :=
  if ("<!DOCTYPE".toList).isPrefixOf (pyStrip html)
      || ("<html".toList).isPrefixOf (pyStrip html) then html
  else doctypeLine ++ html

/-- `LLMGenerator._extract_html_code`. -/
def extract_html_code (response : List Char) : List Char :=
  ensure_doctype (extract_body response)

/-! ## Data model -/

/-- A field of the scraped-data dict: Python distinguishes an absent key, a key
bound to `None`, and a key bound to a value. -/
inductive PyField (α : Type) : Type
  | absent : PyField α
  | pynone : PyField α
  | val : α → PyField α
deriving DecidableEq

/-- `dict.get(k)` / pydantic coercion: both an absent key and `None` become `none`. -/
def PyField.toOption {α : Type} : PyField α → Option α
  | .absent => none
  | .pynone => none
  | .val a => some a

/-- The raw dict returned by `WebsiteScraper.scrape_website` as read by
`llm_generator.py` (`scraped_data`).  Screenshot and PDF payloads are opaque
base64 strings; for the visual-input fields an absent key and `None` behave
identically under the truthiness tests in `_get_best_visual_input`, so they are
collapsed into `Option` there, while `title`/`color_palette`/`fonts` keep the
three-way `PyField` distinction that `dict.get(key, default)` observes. -/
structure ScrapedDict : Type where
  url : List Char
  title : PyField (List Char)
  full_page_screenshots : Option (List (List Char))
  pdf_base64 : Option (List Char)
  screenshot_base64 : Option (List Char)
  screenshot_hero : Option (List Char)
  color_palette : PyField (List (List Char))
  fonts : PyField (List (List Char))
deriving DecidableEq

/-- The `ScrapedData` pydantic model (`models.py`): optional fields, an absent
key and an explicit `None` both validate to `None`. -/
structure ScrapedData : Type where
  url : List Char
  title : Option (List Char)
  color_palette : Option (List (List Char))
  fonts : Option (List (List Char))
deriving DecidableEq

/-- `ScrapedData(**scraped_data_dict)` in `process_website_cloning`. -/
def toScrapedData (r : ScrapedDict) : ScrapedData :=
  { url := r.url
    title := r.title.toOption
    color_palette := r.color_palette.toOption
    fonts := r.fonts.toOption }

/-- `JobStatus` enum from `models.py`. -/
inductive JobStatus : Type
  | pending | scraping | processing | generating | completed | failed
deriving DecidableEq

/-- The mutable state of a `GenerationJob` that the claims are about. -/
structure GenerationJob : Type where
  status : JobStatus
  generated_html : Option (List Char)
  error_message : Option (List Char)
  created_at : Nat
  updated_at : Nat
deriving DecidableEq

/-! ## Visual input selector (`_get_best_visual_input`, `_validate_screenshot_size`)

Image decoding (`base64.b64decode` + `PIL.Image.open`) is an external effect:
it is a parameter `decode` mapping a screenshot blob to its pixel dimensions,
`none` meaning decoding raised (corrupt data). -/

/-- `_validate_screenshot_size`: decode, then require width and height ≤ 3000;
any decoding exception yields `False`. -/
def validate_screenshot_size (decode : List Char → Option (Nat × Nat))
    (screenshot : List Char) : Bool :=
  match decode screenshot with
  | some (w, h) => decide (w ≤ 3000) && decide (h ≤ 3000)
  | none => false

/-- The selector's result: `visual_data` together with its `input_type` tag. -/
inductive VisualInput : Type
  | screenshots : List (List Char) → VisualInput
  | pdf : List Char → VisualInput
  | noInput : VisualInput
deriving DecidableEq

/-- The single-screenshot candidate loop at the end of `_get_best_visual_input`:
per candidate, a Python truthiness test then size validation; first pass wins,
wrapped as a one-element list. -/
def try_single_candidates (decode : List Char → Option (Nat × Nat)) :
    List (Option (List Char)) → VisualInput
  | [] => .noInput
  | some (c :: cs) :: rest =>
    if validate_screenshot_size decode (c :: cs) then .screenshots [c :: cs]
    else try_single_candidates decode rest
  | _ :: rest => try_single_candidates decode rest

/-- `_get_best_visual_input`: full-page screenshot sequence first, then the PDF
blob, then the single-screenshot candidates `screenshot_base64` and
`screenshot_hero` in that order. -/
def get_best_visual_input (decode : List Char → Option (Nat × Nat))
    (r : ScrapedDict) : VisualInput :=
  match r.full_page_screenshots with
  | some (x :: xs) => .screenshots (x :: xs)
  | _ =>
    match r.pdf_base64 with
    | some (c :: cs) => .pdf (c :: cs)
    | _ => try_single_candidates decode [r.screenshot_base64, r.screenshot_hero]

/-! ## Local fallback generator (`_create_fallback_html`)

The f-string template is split into literal chunks so that the three colour
roles appear as explicit tokens; concatenating
`fbA ++ title ++ fbB ++ bgTok c1 ++ fbC ++ colorTok c0 ++ fbD ++ bgTok c0 ++
fbE ++ colorTok c1 ++ fbF ++ accentTok c2 ++ fbG ++ title ++ fbH`
yields exactly the Python f-string with `title`, `colors[0] = c0`,
`colors[1] = c1`, `colors[2] = c2` interpolated (braces written `\x7b`/`\x7d`,
apostrophes `\x27`). -/

def fbA : List Char := ("<!DOCTYPE html>\n<html lang=\"en\">\n<head>\n    <meta charset=\"UTF-8\">\n    <meta name=\"viewport\" content=\"width=device-width, initial-scale=1.0\">\n    <title>".toList)

def fbB : List Char := ("</title>\n    <style>\n        * \x7b margin: 0; padding: 0; box-sizing: border-box; \x7d\n        body \x7b\n            font-family: -apple-system, BlinkMacSystemFont, \x27Segoe UI\x27, Roboto, sans-serif;\n            ".toList)

def fbC : List Char := ("\n            ".toList)

def fbD : List Char := ("\n            line-height: 1.6;\n        \x7d\n        .container \x7b max-width: 1200px; margin: 0 auto; padding: 2rem; \x7d\n        header \x7b \n            ".toList)

def fbE : List Char := (" \n            ".toList)

def fbF : List Char := (" \n            padding: 2rem 0; text-align: center; \n        \x7d\n        .notice \x7b \n            background: #f8f9fa; padding: 2rem; margin: 2rem 0; \n            ".toList)

def fbG : List Char := (" \n        \x7d\n    </style>\n</head>\n<body>\n    <header><h1>".toList)

def fbH : List Char := ("</h1></header>\n    <main class=\"container\">\n        <div class=\"notice\">\n            <h2>AI Website Clone</h2>\n            <p>Fallback mode - check API configuration for full AI generation.</p>\n        </div>\n    </main>\n</body>\n</html>".toList)

/-- A CSS `background:` declaration carrying a colour. -/
def bgTok (c : List Char) : List Char := ("background: ".toList) ++ c ++ [';']

/-- A CSS `color:` declaration carrying a colour. -/
def colorTok (c : List Char) : List Char := ("color: ".toList) ++ c ++ [';']

/-- The accent border declaration carrying a colour. -/
def accentTok (c : List Char) : List Char :=
  ("border-left: 4px solid ".toList) ++ c ++ [';']

/-- The body of the `_create_fallback_html` f-string: text colour `c0`,
background colour `c1`, accent colour `c2`. -/
def fallbackTemplate (title c0 c1 c2 : List Char) : List Char :=
  fbA ++ title ++ fbB ++ bgTok c1 ++ fbC ++ colorTok c0 ++ fbD ++ bgTok c0 ++
    fbE ++ colorTok c1 ++ fbF ++ accentTok c2 ++ fbG ++ title ++ fbH

/-- The default palette in `_create_fallback_html`. -/
def fallbackDefaultPalette : List (List Char) :=
  [("#333333".toList), ("#ffffff".toList), ("#007bff".toList)]

/-- `colors = ...[:3]` followed by the three conditional subscripts
`colors[0] if colors else '#333333'`, `colors[1] if len(colors) > 1 else
'#ffffff'`, `colors[2] if len(colors) > 2 else '#007bff'`. -/
def paletteSlot (l : List (List Char)) (i : Nat) : List Char :=
  match i, l.take 3 with
  | 0, c :: _ => c
  | 0, _ => ("#333333".toList)
  | 1, _ :: c :: _ => c
  | 1, _ => ("#ffffff".toList)
  | _, _ :: _ :: c :: _ => c
  | _, _ => ("#007bff".toList)

/-- `scraped_data.get('title', 'Cloned Website')` as later rendered by the
f-string: an absent key gives the placeholder, a key bound to `None` renders
as the four characters `None`. -/
def pyRenderTitle : PyField (List Char) → List Char
  | .absent => ("Cloned Website".toList)
  | .pynone => ("None".toList)
  | .val s => s

/-- The `TypeError` raised by `None[:3]`. -/
def noneSubscriptError : List Char :=
  ("TypeError: \x27NoneType\x27 object is not subscriptable".toList)

/-- `_create_fallback_html`.  `scraped_data.get('color_palette', defaults)[:3]`
raises `TypeError` when the key is present and bound to `None`; otherwise the
function is the pure template instantiation. -/
def create_fallback_html (r : ScrapedDict) : Except (List Char) (List Char) :=
  match r.color_palette with
  | .pynone => .error noneSubscriptError
  | .absent =>
    .ok (fallbackTemplate (pyRenderTitle r.title)
      (paletteSlot fallbackDefaultPalette 0) (paletteSlot fallbackDefaultPalette 1)
      (paletteSlot fallbackDefaultPalette 2))
  | .val l =>
    .ok (fallbackTemplate (pyRenderTitle r.title)
      (paletteSlot l 0) (paletteSlot l 1) (paletteSlot l 2))

/-! ## Orchestrator fallback (`_create_enhanced_html` in `main.py`) -/

def ehL0 : List Char := ("<!DOCTYPE html>\n<html lang=\"en\">\n<head>\n    <meta charset=\"UTF-8\">\n    <meta name=\"viewport\" content=\"width=device-width, initial-scale=1.0\">\n    <title>".toList)

def ehL1 : List Char := ("</title>\n    <style>\n        body \x7b\n            font-family: ".toList)

def ehL2 : List Char := (";\n            margin: 0;\n            padding: 0;\n            background-color: ".toList)

def ehL3 : List Char := (";\n            color: ".toList)

def ehL4 : List Char := (";\n            line-height: 1.6;\n        \x7d\n        .container \x7b\n            max-width: 1200px;\n            margin: 0 auto;\n            padding: 20px;\n        \x7d\n        header \x7b\n            background-color: ".toList)

def ehL5 : List Char := (";\n            color: ".toList)

def ehL6 : List Char := (";\n            padding: 2rem 0;\n            text-align: center;\n            margin-bottom: 2rem;\n        \x7d\n        .content \x7b\n            background: white;\n            padding: 2rem;\n            border-radius: 8px;\n            box-shadow: 0 2px 10px rgba(0,0,0,0.1);\n            margin-bottom: 2rem;\n        \x7d\n        .info-grid \x7b\n            display: grid;\n            grid-template-columns: repeat(auto-fit, minmax(250px, 1fr));\n            gap: 1rem;\n            margin-top: 2rem;\n        \x7d\n        .info-card \x7b\n            background: #f8f9fa;\n            padding: 1rem;\n            border-radius: 6px;\n            border-left: 4px solid ".toList)

def ehL7 : List Char := (";\n        \x7d\n    </style>\n</head>\n<body>\n    <header>\n        <div class=\"container\">\n            <h1>".toList)

/- On the emoji headings of this template: the bytes of `main.py` hold the
section emoji in a double-encoded form (UTF-8 bytes of an emoji re-read as
MacRoman and re-encoded), e.g. `EF A3 BF C3 BC C3 A9 C2 AE` before
` Extracted Design Elements`.  `main.py` carries no coding declaration, so
CPython decodes it as UTF-8 and the string literals contain exactly the
scalars U+F8FF U+00FC U+00E9 U+00AE; the chunks below transcribe those
scalars, matching the text the running program interpolates. -/
def ehL8 : List Char := ("</h1>\n            <p>Enhanced clone with extracted design data</p>\n        </div>\n    </header>\n    \n    <main class=\"container\">\n        <div class=\"content\">\n            <h2>\uF8FF\u00FC\u00E9\u00AE Extracted Design Elements</h2>\n            \n            <div class=\"info-grid\">\n                <div class=\"info-card\">\n                    <h3>\uF8FF\u00FC\u00EC\u00B1 Original URL</h3>\n                    <p><a href=\"".toList)

def ehL9 : List Char := ("\" target=\"_blank\">".toList)

def ehL10 : List Char := ("</a></p>\n                </div>\n                \n                <div class=\"info-card\">\n                    <h3>\uF8FF\u00FC\u00E9\u00AE Color Palette</h3>\n                    <p>Found ".toList)

def ehL11 : List Char := (" colors</p>\n                </div>\n                \n                <div class=\"info-card\">\n                    <h3>\uF8FF\u00FC\u00EE\u00A7 Typography</h3>\n                    <p>Found ".toList)

def ehL12 : List Char := (" font families</p>\n                </div>\n                \n                <div class=\"info-card\">\n                    <h3>\uF8FF\u00FC\u00EC\u00E4 Analysis Complete</h3>\n                    <p>PDF and screenshot captured</p>\n                    <p>Design data extracted</p>\n                </div>\n            </div>\n        </div>\n    </main>\n</body>\n</html>".toList)

/-- Decimal rendering of `len(...)` inside the f-string. -/
def natChars (n : Nat) : List Char := (Nat.repr n).toList

/-- `_create_enhanced_html` from `main.py`: a different template from
`_create_fallback_html`, driven by the pydantic `ScrapedData` (Python `or` /
truthiness defaults, up to five palette colours, fonts). -/
def create_enhanced_html (sd : ScrapedData) : List Char :=
  let title := match sd.title with
    | some (c :: cs) => c :: cs
    | _ => ("Cloned Website".toList)
  let colors := match sd.color_palette with
    | some (c :: cs) => (c :: cs).take 5
    | _ => fallbackDefaultPalette
  let fonts := match sd.fonts with
    | some (f :: fs) => (f :: fs).take 3
    | _ => [("Arial".toList), ("sans-serif".toList)]
  let primary_color := match colors with
    | [] => ("#333333".toList)
    | c :: _ => c
  let bg_color := match colors with
    | _ :: c :: _ => c
    | _ => ("#ffffff".toList)
  let accent_color := match colors with
    | _ :: _ :: c :: _ => c
    | _ => ("#007bff".toList)
  let primary_font := match fonts with
    | [] => ("Arial, sans-serif".toList)
    | f :: _ => f
  let nColors := match sd.color_palette with
    | some l => l.length
    | none => 0
  let nFonts := match sd.fonts with
    | some l => l.length
    | none => 0
  ehL0 ++ title ++ ehL1 ++ primary_font ++ ehL2 ++ bg_color ++ ehL3 ++
    primary_color ++ ehL4 ++ primary_color ++ ehL5 ++ bg_color ++ ehL6 ++
    accent_color ++ ehL7 ++ title ++ ehL8 ++ sd.url ++ ehL9 ++ sd.url ++
    ehL10 ++ natChars nColors ++ ehL11 ++ natChars nFonts ++ ehL12

/-! ## Generation strategy (`generate_html_clone` and its dispatch)

Model requests to the generative backend are abstracted as an oracle
`call : ModelRequest → Except err text`; an `Except.error` is any transport
error, non-success response or raised exception.  PDF-to-image conversion
(`_convert_pdf_to_image`, PyMuPDF) is a second oracle `convert`, `none`
meaning unavailable or failed.  Each function returns its result together with
the list of model requests it issued, in order. -/

/-- One conversation turn sent to the model, tagged by which prompt variant of
the source issued it. -/
inductive ModelRequest : Type
  | multiImage : List (List Char) → ModelRequest
  | singleImage : List Char → ModelRequest
  | pdfVerbose : List Char → ModelRequest
  | pdfTerse : List Char → ModelRequest
deriving DecidableEq

/-- The `IndexError` raised by `screenshots[0]` on an empty list. -/
def indexError : List Char := ("IndexError: list index out of range".toList)

/-- `_process_image_input`: one single-image request; on failure, the local
fallback generator. -/
def process_image_input (call : ModelRequest → Except (List Char) (List Char))
    (image : List Char) (r : ScrapedDict) :
    Except (List Char) (List Char) × List ModelRequest :=
  match call (.singleImage image) with
  | .ok t => (.ok t, [.singleImage image])
  | .error _ => (create_fallback_html r, [.singleImage image])

/-- `_process_multiple_screenshots`: one request embedding every screenshot in
order; on failure, fall back to `_process_image_input` on `screenshots[0]`. -/
def process_multiple_screenshots
    (call : ModelRequest → Except (List Char) (List Char))
    (screenshots : List (List Char)) (r : ScrapedDict) :
    Except (List Char) (List Char) × List ModelRequest :=
  match call (.multiImage screenshots) with
  | .ok t => (.ok t, [.multiImage screenshots])
  | .error _ =>
    match screenshots with
    | [] => (.error indexError, [.multiImage screenshots])
    | s0 :: _ =>
      let res := process_image_input call s0 r
      (res.1, .multiImage screenshots :: res.2)

/-- `_process_pdf_input`: the verbose-prompt PDF request; on a raised
exception, one retry with the terse prompt; a second exception yields `None`.
A successful response's text is returned as-is, even when empty. -/
def process_pdf_input (call : ModelRequest → Except (List Char) (List Char))
    (d : List Char) : Option (List Char) × List ModelRequest :=
  match call (.pdfVerbose d) with
  | .ok t => (some t, [.pdfVerbose d])
  | .error _ =>
    match call (.pdfTerse d) with
    | .ok t => (some t, [.pdfVerbose d, .pdfTerse d])
    | .error _ => (none, [.pdfVerbose d, .pdfTerse d])

/-- The PDF arm of `_direct_visual_clone`: `_process_pdf_input` guarded by the
Python truthiness test `if pdf_result:` (so `None` and an empty response text
both fall through), then PDF-to-image conversion guarded by `if image_data:`
followed by the single-image path, then the raw `screenshot_base64` if truthy
and validated, else the local fallback generator. -/
def process_pdf_path (call : ModelRequest → Except (List Char) (List Char))
    (convert : List Char → Option (List Char))
    (decode : List Char → Option (Nat × Nat)) (d : List Char) (r : ScrapedDict) :
    Except (List Char) (List Char) × List ModelRequest :=
  let pr := process_pdf_input call d
  match pr.1 with
  | some (c :: cs) => (.ok (c :: cs), pr.2)
  | _ =>
    match convert d with
    | some (c :: cs) =>
      let res := process_image_input call (c :: cs) r
      (res.1, pr.2 ++ res.2)
    | _ =>
      match r.screenshot_base64 with
      | some (c :: cs) =>
        if validate_screenshot_size decode (c :: cs) then
          let res := process_image_input call (c :: cs) r
          (res.1, pr.2 ++ res.2)
        else (create_fallback_html r, pr.2)
      | _ => (create_fallback_html r, pr.2)

/-- `_direct_visual_clone`: dispatch on the selected visual input. -/
def direct_visual_clone (call : ModelRequest → Except (List Char) (List Char))
    (convert : List Char → Option (List Char))
    (decode : List Char → Option (Nat × Nat)) (v : VisualInput) (r : ScrapedDict) :
    Except (List Char) (List Char) × List ModelRequest :=
  match v with
  | .screenshots screenshots =>
    if screenshots.length > 1 then process_multiple_screenshots call screenshots r
    else
      match screenshots with
      | [s] => process_image_input call s r
      | _ => (.error indexError, [])
  | .pdf d => process_pdf_path call convert decode d r
  | .noInput => (create_fallback_html r, [])

/-- `generate_html_clone`: select the visual input, dispatch (or go straight to
the local fallback when nothing is available), then run the artifact extractor
over a successful result. -/
def generate_html_clone (call : ModelRequest → Except (List Char) (List Char))
    (convert : List Char → Option (List Char))
    (decode : List Char → Option (Nat × Nat)) (r : ScrapedDict) :
    Except (List Char) (List Char) × List ModelRequest :=
  let res := match get_best_visual_input decode r with
    | .noInput => (create_fallback_html r, [])
    | v => direct_visual_clone call convert decode v r
  (res.1.map extract_html_code, res.2)

/-! ## Orchestrator (`process_website_cloning` in `main.py`)

The capture collaborator is an `Except`: an error is any exception raised by
`scraper.scrape_website` or by `ScrapedData(**scraped_data_dict)`, carrying the
exception's `str`.  (`scrape_website` wraps every internal failure as
`Exception("Failed to scrape website: ...")`, so its message is never empty.)
The LLM step is `none` when no API key is configured (`llm_generator is None`);
otherwise `some (.ok raw)` when `generate_html_clone` returned the raw dispatch
text (the orchestrator stores it after the extractor has run inside
`generate_html_clone`), and `some (.error e)` when it raised (caught by the
inner `except`, which substitutes `_create_enhanced_html`).  Timestamps are the
successive values of `datetime.now()` at each transition, while the job's
`created_at` and initial `updated_at` come from `datetime.utcnow()` in
`GenerationJob.__init__` — a different clock. -/

/-- The successive job snapshots written by `process_website_cloning`, one per
status transition, starting with the freshly created PENDING job. -/
def pipelineTrace (cap : Except (List Char) ScrapedData)
    (llm : Option (Except (List Char) (List Char)))
    (t1 t2 t3 t4 : Nat) (j0 : GenerationJob) : List GenerationJob :=
  let j1 := { j0 with status := .scraping, updated_at := t1 }
  match cap with
  | .error e =>
    [j0, j1, { j1 with status := .failed, error_message := some e, updated_at := t2 }]
  | .ok sd =>
    let j2 := { j1 with status := .processing, updated_at := t2 }
    let j3 := { j2 with status := .generating, updated_at := t3 }
    let html := match llm with
      | none => create_enhanced_html sd
      | some (.ok raw) => extract_html_code raw
      | some (.error _) => create_enhanced_html sd
    [j0, j1, j2, j3,
      { j3 with status := .completed, generated_html := some html, updated_at := t4 }]

/-- The job's final state after `process_website_cloning` returns. -/
def pipelineFinal (cap : Except (List Char) ScrapedData)
    (llm : Option (Except (List Char) (List Char)))
    (t1 t2 t3 t4 : Nat) (j0 : GenerationJob) : GenerationJob :=
  (pipelineTrace cap llm t1 t2 t3 t4 j0).getLastD j0

/-- The allowed forward chain of `JobStatus` values. -/
def statusChain : List JobStatus :=
  [.pending, .scraping, .processing, .generating, .completed]

/-! ## Helper lemmas: Python string helpers -/

theorem isPrefixOf_eq_true_iff (l m : List Char) :
    l.isPrefixOf m = true ↔ ∃ t, m = l ++ t := by
  induction l generalizing m with
  | nil => simp [List.isPrefixOf]
  | cons a l ih =>
    cases m with
    | nil => simp [List.isPrefixOf]
    | cons b m =>
      simp only [List.isPrefixOf, Bool.and_eq_true, beq_iff_eq, ih, List.cons_append,
        List.cons.injEq]
      constructor
      · rintro ⟨rfl, t, rfl⟩
        exact ⟨t, rfl, rfl⟩
      · rintro ⟨t, rfl, rfl⟩
        exact ⟨rfl, t, rfl⟩

theorem dropWhile_of_all_false {p : Char → Bool} {l : List Char}
    (h : ∀ c ∈ l, p c = false) : l.dropWhile p = l := by
  cases l with
  | nil => rfl
  | cons c t => simp [List.dropWhile_cons, h c (by simp)]

theorem lstrip_of_head_false {c : Char} {t : List Char} (hc : isPySpace c = false) :
    lstrip (c :: t) = c :: t := by
  simp [lstrip, List.dropWhile_cons, hc]

theorem rstrip_append_of_clean {pfx : List Char} (t : List Char)
    (hclean : ∀ c ∈ pfx, isPySpace c = false) :
    rstrip (pfx ++ t) = pfx ++ rstrip t := by
  unfold rstrip
  rw [List.reverse_append, List.dropWhile_append]
  have hp : pfx.reverse.dropWhile isPySpace = pfx.reverse :=
    dropWhile_of_all_false (by simpa using fun c hc => hclean c hc)
  by_cases he : (t.reverse.dropWhile isPySpace).isEmpty = true
  · rw [if_pos he, hp]
    rw [List.isEmpty_iff] at he
    simp [he]
  · rw [if_neg he]
    simp [List.reverse_append]

theorem rstrip_decomp (s : List Char) :
    s = rstrip s ++ (s.reverse.takeWhile isPySpace).reverse := by
  unfold rstrip
  have h2 := congrArg List.reverse (List.takeWhile_append_dropWhile isPySpace s.reverse)
  rw [List.reverse_append, List.reverse_reverse] at h2
  exact h2.symm

theorem lstrip_decomp (s : List Char) : s = s.takeWhile isPySpace ++ lstrip s :=
  (List.takeWhile_append_dropWhile isPySpace s).symm

theorem lstrip_idem (s : List Char) : lstrip (lstrip s) = lstrip s :=
  List.dropWhile_idempotent isPySpace s

theorem rstrip_idem (s : List Char) : rstrip (rstrip s) = rstrip s := by
  simp [rstrip, List.reverse_reverse, List.dropWhile_idempotent]

theorem lstrip_rstrip (s : List Char) (h : lstrip s = s) :
    lstrip (rstrip s) = rstrip s := by
  cases hr : rstrip s with
  | nil => simp [lstrip]
  | cons c t =>
    have hs := rstrip_decomp s
    rw [hr] at hs
    have hc : isPySpace c = false := by
      have hhead := List.head?_dropWhile_not isPySpace s
      rw [show s.dropWhile isPySpace = s from h] at hhead
      rw [hs] at hhead
      simpa using hhead
    exact lstrip_of_head_false hc

theorem pyStrip_idem (s : List Char) : pyStrip (pyStrip s) = pyStrip s := by
  unfold pyStrip
  rw [lstrip_rstrip (lstrip s) (lstrip_idem s), rstrip_idem]

theorem pyStrip_of_clean_head {pfx t : List Char} (hne : pfx ≠ [])
    (hclean : ∀ c ∈ pfx, isPySpace c = false) :
    pyStrip (pfx ++ t) = pfx ++ rstrip t := by
  unfold pyStrip
  obtain ⟨c, p', rfl⟩ : ∃ c p', pfx = c :: p' := by
    cases pfx with
    | nil => exact absurd rfl hne
    | cons c p' => exact ⟨c, p', rfl⟩
  rw [List.cons_append, lstrip_of_head_false (hclean c (by simp)), ← List.cons_append,
    rstrip_append_of_clean t hclean]

theorem pyStrip_decomp (s : List Char) :
    ∃ a b, s = a ++ pyStrip s ++ b := by
  refine ⟨s.takeWhile isPySpace, ((lstrip s).reverse.takeWhile isPySpace).reverse, ?_⟩
  conv_lhs => rw [lstrip_decomp s]
  rw [List.append_assoc]
  congr 1
  exact rstrip_decomp (lstrip s)

theorem pyFind_isSome_iff (n h : List Char) :
    (pyFind n h).isSome = true ↔ ∃ a b, h = a ++ n ++ b := by
  induction h with
  | nil =>
    cases n with
    | nil =>
      simp [pyFind, List.isPrefixOf]
    | cons c t =>
      simp only [pyFind, List.isPrefixOf, if_false, Bool.false_eq_true, Option.isSome_none,
        false_iff]
      rintro ⟨a, b, hab⟩
      rw [List.append_assoc] at hab
      rcases (List.append_eq_nil.mp hab.symm) with ⟨-, h2⟩
      exact absurd h2 (by simp)
  | cons c rest ih =>
    simp only [pyFind]
    by_cases hp : n.isPrefixOf (c :: rest) = true
    · rw [if_pos hp]
      rw [isPrefixOf_eq_true_iff] at hp
      obtain ⟨t, ht⟩ := hp
      exact ⟨fun _ => ⟨[], t, by simpa using ht⟩, fun _ => rfl⟩
    · rw [if_neg hp]
      rw [show ((pyFind n rest).map (· + 1)).isSome = (pyFind n rest).isSome by
        cases pyFind n rest <;> rfl]
      rw [ih]
      constructor
      · rintro ⟨a, b, rfl⟩
        exact ⟨c :: a, b, rfl⟩
      · rintro ⟨a, b, hab⟩
        cases a with
        | nil =>
          refine absurd ?_ hp
          rw [isPrefixOf_eq_true_iff]
          exact ⟨b, by simpa using hab⟩
        | cons a' as =>
          simp only [List.cons_append, List.cons.injEq] at hab
          exact ⟨as, b, hab.2⟩

theorem containsSub_of_part {n m a x b : List Char} (hm : m = a ++ x ++ b)
    (hx : containsSub n x = true) : containsSub n m = true := by
  unfold containsSub at hx ⊢
  rw [pyFind_isSome_iff] at hx ⊢
  obtain ⟨u, v, rfl⟩ := hx
  exact ⟨a ++ u, v ++ b, by simp [hm, List.append_assoc]⟩

theorem pyFind_eq_none_of_not_contains {n h : List Char}
    (hc : containsSub n h = false) : pyFind n h = none := by
  unfold containsSub at hc
  cases hfind : pyFind n h with
  | none => rfl
  | some i => rw [hfind] at hc; simp at hc

theorem fenceHtml_split : fenceHtml = fence3 ++ ("html".toList) := by decide

theorem pyFind_fenceHtml_none {h : List Char} (hc : containsSub fence3 h = false) :
    pyFind fenceHtml h = none := by
  cases hfind : pyFind fenceHtml h with
  | none => rfl
  | some i =>
    exfalso
    have hsome : (pyFind fenceHtml h).isSome = true := by rw [hfind]; rfl
    rw [pyFind_isSome_iff] at hsome
    obtain ⟨a, b, rfl⟩ := hsome
    have : containsSub fence3 (a ++ fenceHtml ++ b) = true := by
      refine containsSub_of_part (a := a) (x := fenceHtml) (b := b) rfl ?_
      unfold containsSub
      rw [pyFind_isSome_iff]
      exact ⟨[], ("html".toList), by simpa using fenceHtml_split⟩
    rw [this] at hc
    simp at hc

/-! ## Artifact extractor: totality and idempotence -/

theorem append_ne_nil_left {l t : List Char} (hl : l ≠ []) : l ++ t ≠ [] := by
  intro h
  rcases List.append_eq_nil.mp h with ⟨h1, -⟩
  exact hl h1

theorem extract_body_stripped (response : List Char) :
    pyStrip (extract_body response) = extract_body response := by
  unfold extract_body
  repeat' split
  all_goals exact pyStrip_idem _

theorem doctypeLine_split :
    doctypeLine = ("<!DOCTYPE".toList) ++ (" html>\n".toList) := by decide

theorem ensure_doctype_spec (h : List Char) (hs : pyStrip h = h) :
    ensure_doctype h ≠ [] ∧
    ((("<!DOCTYPE".toList).isPrefixOf (ensure_doctype h)
      || ("<html".toList).isPrefixOf (ensure_doctype h)) = true) := by
  unfold ensure_doctype
  by_cases hc : (("<!DOCTYPE".toList).isPrefixOf (pyStrip h)
      || ("<html".toList).isPrefixOf (pyStrip h)) = true
  · rw [if_pos hc]
    rw [hs] at hc
    refine ⟨?_, hc⟩
    rcases Bool.or_eq_true_iff.mp hc with hd | hd
    all_goals
      rw [isPrefixOf_eq_true_iff] at hd
      obtain ⟨t, rfl⟩ := hd
      exact append_ne_nil_left (by decide)
  · rw [if_neg hc]
    constructor
    · rw [doctypeLine_split, List.append_assoc]
      exact append_ne_nil_left (by decide)
    · apply Bool.or_eq_true_iff.mpr
      left
      rw [isPrefixOf_eq_true_iff]
      exact ⟨(" html>\n".toList) ++ h, by rw [doctypeLine_split]; simp [List.append_assoc]⟩

theorem extract_html_code_total_aux (response : List Char) :
    extract_html_code response ≠ [] ∧
    ((("<!DOCTYPE".toList).isPrefixOf (extract_html_code response)
      || ("<html".toList).isPrefixOf (extract_html_code response)) = true) := by
  simp only [extract_html_code]
  exact ensure_doctype_spec (extract_body response) (extract_body_stripped response)

theorem extract_nofence_aux {response : List Char}
    (hnf : containsSub fence3 response = false) :
    extract_html_code response = ensure_doctype (pyStrip response) := by
  simp only [extract_html_code, extract_body]
  rw [pyFind_fenceHtml_none hnf, pyFind_eq_none_of_not_contains hnf]

theorem clean_head_or (s : List Char)
    (hpfx : ((("<!DOCTYPE".toList).isPrefixOf s || ("<html".toList).isPrefixOf s) = true)) :
    (("<!DOCTYPE".toList).isPrefixOf (pyStrip s)
      || ("<html".toList).isPrefixOf (pyStrip s)) = true := by
  rcases Bool.or_eq_true_iff.mp hpfx with hd | hd
  all_goals
    rw [isPrefixOf_eq_true_iff] at hd
    obtain ⟨t, rfl⟩ := hd
    rw [pyStrip_of_clean_head (by decide) (by decide)]
  · exact Bool.or_eq_true_iff.mpr (Or.inl (by
      rw [isPrefixOf_eq_true_iff]; exact ⟨rstrip t, rfl⟩))
  · exact Bool.or_eq_true_iff.mpr (Or.inr (by
      rw [isPrefixOf_eq_true_iff]; exact ⟨rstrip t, rfl⟩))

theorem extract_on_clean (s : List Char)
    (hpfx : ((("<!DOCTYPE".toList).isPrefixOf s || ("<html".toList).isPrefixOf s) = true))
    (hnf : containsSub fence3 s = false) :
    extract_html_code s = pyStrip s := by
  rw [extract_nofence_aux hnf]
  unfold ensure_doctype
  rw [pyStrip_idem]
  rw [if_pos (clean_head_or s hpfx)]

theorem strip_no_fence {s : List Char} (hnf : containsSub fence3 s = false) :
    containsSub fence3 (pyStrip s) = false := by
  cases hx : containsSub fence3 (pyStrip s) with
  | false => rfl
  | true =>
    obtain ⟨a, b, hab⟩ := pyStrip_decomp s
    rw [containsSub_of_part hab hx] at hnf
    simp at hnf

/-- C5: the Artifact Extractor is total: for every input string — the empty
string, unterminated fences, multiple fences included — `_extract_html_code`
returns a non-empty string beginning with a doctype declaration or an HTML root
tag; on fence-free input it is the whole text, trimmed, with the doctype line
prepended when the trimmed text does not already start with a doctype or root
tag. -/
theorem extract_html_total (response : List Char) :
    extract_html_code response ≠ [] ∧
    ((("<!DOCTYPE".toList).isPrefixOf (extract_html_code response)
      || ("<html".toList).isPrefixOf (extract_html_code response)) = true) ∧
    (containsSub fence3 response = false →
      extract_html_code response = ensure_doctype (pyStrip response)) :=
  ⟨(extract_html_code_total_aux response).1, (extract_html_code_total_aux response).2,
    fun hnf => extract_nofence_aux hnf⟩

/-- Witness for C5 at the concrete fence-free input `hello`. -/
theorem extract_html_total_witness :
    containsSub fence3 ("hello".toList) = false ∧
    (extract_html_code ("hello".toList) ≠ [] ∧
      extract_html_code ("hello".toList) = ensure_doctype (pyStrip ("hello".toList))) :=
  ⟨by decide,
    (extract_html_total ("hello".toList)).1,
    (extract_html_total ("hello".toList)).2.2 (by decide)⟩

/-- C10: the Artifact Extractor is idempotent on already-clean input: any text
beginning with a doctype declaration or an HTML root tag and containing no code
fence satisfies `extract (extract x) = extract x`. -/
theorem extract_idempotent_clean (x : List Char)
    (hpfx : ((("<!DOCTYPE".toList).isPrefixOf x || ("<html".toList).isPrefixOf x) = true))
    (hnf : containsSub fence3 x = false) :
    extract_html_code (extract_html_code x) = extract_html_code x := by
  rw [extract_on_clean x hpfx hnf,
    extract_on_clean (pyStrip x) (clean_head_or x hpfx) (strip_no_fence hnf),
    pyStrip_idem]

/-- Witness for C10 at the concrete clean input `<html><p>hi</p></html>`. -/
theorem extract_idempotent_clean_witness :
    ((("<!DOCTYPE".toList).isPrefixOf ("<html><p>hi</p></html>".toList)
      || ("<html".toList).isPrefixOf ("<html><p>hi</p></html>".toList)) = true) ∧
    containsSub fence3 ("<html><p>hi</p></html>".toList) = false ∧
    extract_html_code (extract_html_code ("<html><p>hi</p></html>".toList)) =
      extract_html_code ("<html><p>hi</p></html>".toList) :=
  ⟨by decide, by decide,
    extract_idempotent_clean ("<html><p>hi</p></html>".toList) (by decide) (by decide)⟩

/-- C7: size validation accepts exactly the screenshots whose decoded width and
height are both ≤ 3000, and an undecodable screenshot fails validation instead
of raising. -/
theorem screenshot_size_validation (decode : List Char → Option (Nat × Nat))
    (s : List Char) :
    (decode s = none → validate_screenshot_size decode s = false) ∧
    (∀ w h, decode s = some (w, h) →
      (validate_screenshot_size decode s = true ↔ (w ≤ 3000 ∧ h ≤ 3000))) := by
  constructor
  · intro hd
    simp [validate_screenshot_size, hd]
  · intro w h hd
    simp [validate_screenshot_size, hd]

/-- A concrete decoder for the C7 witness: one 3000 by 3000 image, one 3001 by
3000 image, one corrupt blob. -/
def decodeSample (s : List Char) : Option (Nat × Nat) :=
  if s = ("ok".toList) then some (3000, 3000)
  else if s = ("wide".toList) then some (3001, 3000)
  else none

/-- Witness for C7: a 3000 by 3000 image passes, a 3001 by 3000 image fails,
a corrupt image fails. -/
theorem screenshot_size_validation_witness :
    decodeSample ("ok".toList) = some (3000, 3000) ∧
    validate_screenshot_size decodeSample ("ok".toList) = true ∧
    decodeSample ("wide".toList) = some (3001, 3000) ∧
    validate_screenshot_size decodeSample ("wide".toList) = false ∧
    decodeSample ("bad".toList) = none ∧
    validate_screenshot_size decodeSample ("bad".toList) = false :=
  ⟨by decide,
    ((screenshot_size_validation decodeSample ("ok".toList)).2 3000 3000 (by decide)).mpr
      (by decide),
    by decide,
    by
      have h := ((screenshot_size_validation decodeSample ("wide".toList)).2 3001 3000
        (by decide))
      cases hv : validate_screenshot_size decodeSample ("wide".toList) with
      | false => rfl
      | true => exact absurd (h.mp hv).1 (by decide),
    by decide,
    (screenshot_size_validation decodeSample ("bad".toList)).1 (by decide)⟩

/-! ## Visual input selector: priority order -/

/-- Python truthiness of an optional list value: `None`, a missing key and an
empty list are all falsy. -/
def pyTruthy {α : Type} : Option (List α) → Bool
  | some (_ :: _) => true
  | _ => false

/-- A single-screenshot candidate yields nothing: it is falsy, or it is present
but fails size validation. -/
def candidateFails (decode : List Char → Option (Nat × Nat))
    (o : Option (List Char)) : Prop :=
  ∀ c cs, o = some (c :: cs) → validate_screenshot_size decode (c :: cs) = false

theorem selector_fallthrough (decode : List Char → Option (Nat × Nat))
    (r : ScrapedDict) (hfps : pyTruthy r.full_page_screenshots = false)
    (hpdf : pyTruthy r.pdf_base64 = false) :
    get_best_visual_input decode r =
      try_single_candidates decode [r.screenshot_base64, r.screenshot_hero] := by
  unfold get_best_visual_input
  cases hf : r.full_page_screenshots with
  | some l =>
    cases l with
    | nil =>
      cases hp : r.pdf_base64 with
      | some m =>
        cases m with
        | nil => rfl
        | cons c cs => rw [hp, pyTruthy] at hpdf; simp at hpdf
      | none => rfl
    | cons x xs => rw [hf, pyTruthy] at hfps; simp at hfps
  | none =>
    cases hp : r.pdf_base64 with
    | some m =>
      cases m with
      | nil => rfl
      | cons c cs => rw [hp, pyTruthy] at hpdf; simp at hpdf
    | none => rfl

theorem try_single_pair_spec (decode : List Char → Option (Nat × Nat))
    (sb hero : Option (List Char)) :
    (∀ c cs, sb = some (c :: cs) → validate_screenshot_size decode (c :: cs) = true →
      try_single_candidates decode [sb, hero] = .screenshots [c :: cs]) ∧
    (candidateFails decode sb →
      ∀ c cs, hero = some (c :: cs) → validate_screenshot_size decode (c :: cs) = true →
        try_single_candidates decode [sb, hero] = .screenshots [c :: cs]) ∧
    (candidateFails decode sb → candidateFails decode hero →
      try_single_candidates decode [sb, hero] = .noInput) := by
  refine ⟨?_, ?_, ?_⟩
  · rintro c cs rfl hv
    simp [try_single_candidates, hv]
  · intro hsb c cs hh hv
    have htail : try_single_candidates decode [hero] = .screenshots [c :: cs] := by
      rw [hh]
      simp [try_single_candidates, hv]
    cases hs : sb with
    | none => simpa [try_single_candidates] using htail
    | some l =>
      cases l with
      | nil => simpa [try_single_candidates] using htail
      | cons d ds =>
        have hvd := hsb d ds hs
        simpa [try_single_candidates, hvd] using htail
  · intro hsb hh
    have htail : try_single_candidates decode [hero] = .noInput := by
      cases hhe : hero with
      | none => simp [try_single_candidates]
      | some l =>
        cases l with
        | nil => simp [try_single_candidates]
        | cons d ds =>
          rw [hhe] at hh
          simp [try_single_candidates, hh d ds rfl]
    cases hs : sb with
    | none => simpa [try_single_candidates] using htail
    | some l =>
      cases l with
      | nil => simpa [try_single_candidates] using htail
      | cons d ds =>
        simpa [try_single_candidates, hsb d ds hs] using htail

/-- C2 amended: the selector prefers a non-empty full-page screenshot sequence,
then a non-empty PDF blob; failing those it tries exactly two single-screenshot
candidates — generic capture (`screenshot_base64`) first, hero capture
(`screenshot_hero`) second — taking the first that is truthy and passes size
validation, wrapped as a one-element sequence, else returns no input. -/
theorem selector_priority_amended (decode : List Char → Option (Nat × Nat))
    (r : ScrapedDict) :
    (∀ x xs, r.full_page_screenshots = some (x :: xs) →
      get_best_visual_input decode r = VisualInput.screenshots (x :: xs)) ∧
    (pyTruthy r.full_page_screenshots = false →
      ∀ c cs, r.pdf_base64 = some (c :: cs) →
        get_best_visual_input decode r = VisualInput.pdf (c :: cs)) ∧
    (pyTruthy r.full_page_screenshots = false → pyTruthy r.pdf_base64 = false →
      ∀ c cs, r.screenshot_base64 = some (c :: cs) →
        validate_screenshot_size decode (c :: cs) = true →
        get_best_visual_input decode r = VisualInput.screenshots [c :: cs]) ∧
    (pyTruthy r.full_page_screenshots = false → pyTruthy r.pdf_base64 = false →
      candidateFails decode r.screenshot_base64 →
      ∀ c cs, r.screenshot_hero = some (c :: cs) →
        validate_screenshot_size decode (c :: cs) = true →
        get_best_visual_input decode r = VisualInput.screenshots [c :: cs]) ∧
    (pyTruthy r.full_page_screenshots = false → pyTruthy r.pdf_base64 = false →
      candidateFails decode r.screenshot_base64 →
      candidateFails decode r.screenshot_hero →
      get_best_visual_input decode r = VisualInput.noInput) := by
  refine ⟨?_, ?_, ?_, ?_, ?_⟩
  · intro x xs h
    simp [get_best_visual_input, h]
  · intro hfps c cs hpdf
    cases hf : r.full_page_screenshots with
    | some l =>
      cases l with
      | nil => simp [get_best_visual_input, hf, hpdf]
      | cons x xs => rw [hf, pyTruthy] at hfps; simp at hfps
    | none => simp [get_best_visual_input, hf, hpdf]
  · intro hfps hpdf c cs hsb hv
    rw [selector_fallthrough decode r hfps hpdf]
    exact (try_single_pair_spec decode r.screenshot_base64 r.screenshot_hero).1 c cs hsb hv
  · intro hfps hpdf hsb c cs hh hv
    rw [selector_fallthrough decode r hfps hpdf]
    exact (try_single_pair_spec decode r.screenshot_base64 r.screenshot_hero).2.1 hsb c cs hh hv
  · intro hfps hpdf hsb hh
    rw [selector_fallthrough decode r hfps hpdf]
    exact (try_single_pair_spec decode r.screenshot_base64 r.screenshot_hero).2.2 hsb hh

/-- A decoder under which every blob decodes to a small valid image. -/
def decodeAllSmall : List Char → Option (Nat × Nat) := fun _ => some (100, 100)

/-- A record with both single-screenshot candidates present and valid. -/
def rSelOrder : ScrapedDict :=
  { url := ("u".toList), title := PyField.absent, full_page_screenshots := none,
    pdf_base64 := none, screenshot_base64 := some ("G".toList),
    screenshot_hero := some ("H".toList), color_palette := PyField.absent,
    fonts := PyField.absent }

/-- C2 counterexample: with the hero capture present and passing validation, the
claimed hero-first candidate order would select the hero screenshot, but the
code tries `screenshot_base64` (the generic capture) first and returns it; the
code also has no structural-section or narrow-viewport candidates at all. -/
theorem selector_candidate_order_counterexample :
    rSelOrder.screenshot_hero = some ("H".toList) ∧
    validate_screenshot_size decodeAllSmall ("H".toList) = true ∧
    get_best_visual_input decodeAllSmall rSelOrder =
      VisualInput.screenshots [("G".toList)] ∧
    VisualInput.screenshots [("G".toList)] ≠ VisualInput.screenshots [("H".toList)] := by
  refine ⟨by decide, by decide, by decide, by decide⟩

/-- A record carrying both a non-empty screenshot sequence and a PDF blob. -/
def rSelBoth : ScrapedDict :=
  { url := ("u".toList), title := PyField.absent,
    full_page_screenshots := some [("S1".toList)], pdf_base64 := some ("P".toList),
    screenshot_base64 := none, screenshot_hero := none,
    color_palette := PyField.absent, fonts := PyField.absent }

/-- Witness for the amended C2: with both a non-empty sequence and a PDF blob
present, the selector chooses the sequence, never the document. -/
theorem selector_priority_amended_witness :
    rSelBoth.full_page_screenshots = some [("S1".toList)] ∧
    rSelBoth.pdf_base64 = some ("P".toList) ∧
    get_best_visual_input decodeAllSmall rSelBoth =
      VisualInput.screenshots [("S1".toList)] :=
  ⟨rfl, rfl,
    (selector_priority_amended decodeAllSmall rSelBoth).1 ("S1".toList) [] rfl⟩

/-! ## Local fallback generator: totality, determinism, colour mapping -/

/-- A record whose `color_palette` key is present and bound to `None`. -/
def rPaletteNone : ScrapedDict :=
  { url := ("u".toList), title := PyField.absent, full_page_screenshots := none,
    pdf_base64 := none, screenshot_base64 := none, screenshot_hero := none,
    color_palette := PyField.pynone, fonts := PyField.absent }

/-- C4 counterexample: with the palette field bound to `None`,
`_create_fallback_html` evaluates `None[:3]` and raises `TypeError` instead of
returning a document — the generator is not total over such records. -/
theorem fallback_html_none_palette_raises :
    create_fallback_html rPaletteNone = Except.error noneSubscriptError := rfl

/-- C4 amended: `_create_fallback_html` returns an HTML document without
raising for every record whose palette field is absent or bound to a list
(empty included, and any title shape); only a palette bound to `None` raises. -/
theorem fallback_html_total_amended (r : ScrapedDict)
    (h : r.color_palette ≠ PyField.pynone) :
    ∃ out, create_fallback_html r = Except.ok out := by
  cases hp : r.color_palette with
  | pynone => exact absurd hp h
  | absent =>
    exact ⟨fallbackTemplate (pyRenderTitle r.title) (paletteSlot fallbackDefaultPalette 0)
      (paletteSlot fallbackDefaultPalette 1) (paletteSlot fallbackDefaultPalette 2),
      by simp [create_fallback_html, hp]⟩
  | val l =>
    exact ⟨fallbackTemplate (pyRenderTitle r.title) (paletteSlot l 0) (paletteSlot l 1)
      (paletteSlot l 2), by simp [create_fallback_html, hp]⟩

/-- Witness for the amended C4 at a record with an absent palette and absent
title. -/
theorem fallback_html_total_amended_witness :
    rPaletteNone.color_palette = PyField.pynone ∧
    rSelOrder.color_palette ≠ PyField.pynone ∧
    (∃ out, create_fallback_html rSelOrder = Except.ok out) :=
  ⟨rfl, by decide, fallback_html_total_amended rSelOrder (by decide)⟩

/-- C8: the fallback generator is a deterministic function of title and
palette; for a palette bound to a list it produces exactly the template with
palette slot 0 as text colour, slot 1 as background colour, slot 2 as accent
border colour (defaults `#333333`, `#ffffff`, `#007bff` for missing slots,
all three when the palette is empty), and the output contains the rendered
title and each colour token literally. -/
theorem fallback_html_deterministic_mapping (r₁ r₂ r : ScrapedDict)
    (l : List (List Char))
    (h12t : r₁.title = r₂.title) (h12p : r₁.color_palette = r₂.color_palette)
    (hl : r.color_palette = PyField.val l) :
    create_fallback_html r₁ = create_fallback_html r₂ ∧
    create_fallback_html r =
      Except.ok (fallbackTemplate (pyRenderTitle r.title)
        (paletteSlot l 0) (paletteSlot l 1) (paletteSlot l 2)) ∧
    (∃ a b, fallbackTemplate (pyRenderTitle r.title)
        (paletteSlot l 0) (paletteSlot l 1) (paletteSlot l 2) =
        a ++ pyRenderTitle r.title ++ b) ∧
    (∃ a b, fallbackTemplate (pyRenderTitle r.title)
        (paletteSlot l 0) (paletteSlot l 1) (paletteSlot l 2) =
        a ++ colorTok (paletteSlot l 0) ++ b) ∧
    (∃ a b, fallbackTemplate (pyRenderTitle r.title)
        (paletteSlot l 0) (paletteSlot l 1) (paletteSlot l 2) =
        a ++ bgTok (paletteSlot l 1) ++ b) ∧
    (∃ a b, fallbackTemplate (pyRenderTitle r.title)
        (paletteSlot l 0) (paletteSlot l 1) (paletteSlot l 2) =
        a ++ accentTok (paletteSlot l 2) ++ b) ∧
    (l = [] → paletteSlot l 0 = ("#333333".toList) ∧
      paletteSlot l 1 = ("#ffffff".toList) ∧ paletteSlot l 2 = ("#007bff".toList)) := by
  refine ⟨?_, ?_, ?_, ?_, ?_, ?_, ?_⟩
  · simp only [create_fallback_html, h12p, h12t]
  · simp [create_fallback_html, hl]
  · exact ⟨fbA, fbB ++ bgTok (paletteSlot l 1) ++ fbC ++ colorTok (paletteSlot l 0) ++
      fbD ++ bgTok (paletteSlot l 0) ++ fbE ++ colorTok (paletteSlot l 1) ++ fbF ++
      accentTok (paletteSlot l 2) ++ fbG ++ pyRenderTitle r.title ++ fbH,
      by simp [fallbackTemplate, List.append_assoc]⟩
  · exact ⟨fbA ++ pyRenderTitle r.title ++ fbB ++ bgTok (paletteSlot l 1) ++ fbC,
      fbD ++ bgTok (paletteSlot l 0) ++ fbE ++ colorTok (paletteSlot l 1) ++ fbF ++
      accentTok (paletteSlot l 2) ++ fbG ++ pyRenderTitle r.title ++ fbH,
      by simp [fallbackTemplate, List.append_assoc]⟩
  · exact ⟨fbA ++ pyRenderTitle r.title ++ fbB,
      fbC ++ colorTok (paletteSlot l 0) ++ fbD ++ bgTok (paletteSlot l 0) ++ fbE ++
      colorTok (paletteSlot l 1) ++ fbF ++ accentTok (paletteSlot l 2) ++ fbG ++
      pyRenderTitle r.title ++ fbH,
      by simp [fallbackTemplate, List.append_assoc]⟩
  · exact ⟨fbA ++ pyRenderTitle r.title ++ fbB ++ bgTok (paletteSlot l 1) ++ fbC ++
      colorTok (paletteSlot l 0) ++ fbD ++ bgTok (paletteSlot l 0) ++ fbE ++
      colorTok (paletteSlot l 1) ++ fbF,
      fbG ++ pyRenderTitle r.title ++ fbH,
      by simp [fallbackTemplate, List.append_assoc]⟩
  · rintro rfl
    exact ⟨rfl, rfl, rfl⟩

/-- The evidence record of end-to-end scenario C: title `Acme`, palette
`#111111`, `#eeeeee`, `#ff0000`, no visual input. -/
def rAcme : ScrapedDict :=
  { url := ("https://acme.example".toList), title := PyField.val ("Acme".toList),
    full_page_screenshots := none, pdf_base64 := none, screenshot_base64 := none,
    screenshot_hero := none,
    color_palette := PyField.val
      [("#111111".toList), ("#eeeeee".toList), ("#ff0000".toList)],
    fonts := PyField.absent }

/-- Witness for C8 at scenario C: the output is the template with `Acme` as the
literal title, `#111111` as text colour, `#eeeeee` as background colour,
`#ff0000` as accent border colour, each contained literally. -/
theorem fallback_html_deterministic_mapping_witness :
    rAcme.color_palette = PyField.val
      [("#111111".toList), ("#eeeeee".toList), ("#ff0000".toList)] ∧
    create_fallback_html rAcme =
      Except.ok (fallbackTemplate ("Acme".toList) ("#111111".toList)
        ("#eeeeee".toList) ("#ff0000".toList)) ∧
    (∃ a b, fallbackTemplate ("Acme".toList) ("#111111".toList) ("#eeeeee".toList)
        ("#ff0000".toList) = a ++ ("Acme".toList) ++ b) ∧
    (∃ a b, fallbackTemplate ("Acme".toList) ("#111111".toList) ("#eeeeee".toList)
        ("#ff0000".toList) = a ++ colorTok ("#111111".toList) ++ b) ∧
    (∃ a b, fallbackTemplate ("Acme".toList) ("#111111".toList) ("#eeeeee".toList)
        ("#ff0000".toList) = a ++ bgTok ("#eeeeee".toList) ++ b) ∧
    (∃ a b, fallbackTemplate ("Acme".toList) ("#111111".toList) ("#eeeeee".toList)
        ("#ff0000".toList) = a ++ accentTok ("#ff0000".toList) ++ b) := by
  obtain ⟨-, heq, ht, hc0, hc1, hc2, -⟩ :=
    fallback_html_deterministic_mapping rAcme rAcme rAcme
      [("#111111".toList), ("#eeeeee".toList), ("#ff0000".toList)] rfl rfl rfl
  exact ⟨rfl, heq, ht, hc0, hc1, hc2⟩

/-! ## Job lifecycle and error handling -/

theorem create_enhanced_html_ne_nil (sd : ScrapedData) :
    create_enhanced_html sd ≠ [] := by
  intro h
  simp only [create_enhanced_html, List.append_eq_nil, and_assoc] at h
  exact absurd h.1 (by decide)

/-- A freshly created job as built by `GenerationJob.__init__`. -/
def j0Sample : GenerationJob :=
  { status := .pending, generated_html := none, error_message := none,
    created_at := 0, updated_at := 0 }

/-- A minimal successful capture payload. -/
def sdSample : ScrapedData :=
  { url := ("https://x".toList), title := none, color_palette := none, fonts := none }

/-- Supporting lemma: over one run of `process_website_cloning`, the observed
status sequence is the full chain PENDING, SCRAPING, PROCESSING, GENERATING,
COMPLETED, or a proper prefix of the non-terminal states followed by FAILED,
and a terminal status appears only as the last entry.  The `updated_at` chain
from `created_at` additionally needs the hypothesis `j0.created_at ≤ t1`,
which bridges two different clocks: `GenerationJob.__init__` stamps
`created_at` with `datetime.utcnow()` while every transition stamps
`datetime.now()` (local time), so the hypothesis holds only on hosts at or
east of UTC — see the failing run below. -/
theorem job_status_lifecycle (cap : Except (List Char) ScrapedData)
    (llm : Option (Except (List Char) (List Char))) (t1 t2 t3 t4 : Nat)
    (j0 : GenerationJob) (h0 : j0.status = JobStatus.pending)
    (hcu : j0.updated_at = j0.created_at) (h01 : j0.created_at ≤ t1)
    (h12 : t1 ≤ t2) (h23 : t2 ≤ t3) (h34 : t3 ≤ t4) :
    ((pipelineTrace cap llm t1 t2 t3 t4 j0).map GenerationJob.status = statusChain ∨
      ∃ k, k + 1 < statusChain.length ∧
        (pipelineTrace cap llm t1 t2 t3 t4 j0).map GenerationJob.status =
          statusChain.take (k + 1) ++ [JobStatus.failed]) ∧
    (∀ s ∈ ((pipelineTrace cap llm t1 t2 t3 t4 j0).map GenerationJob.status).dropLast,
      s ≠ JobStatus.completed ∧ s ≠ JobStatus.failed) ∧
    List.Chain' (fun a b => a ≤ b)
      (j0.created_at ::
        (pipelineTrace cap llm t1 t2 t3 t4 j0).map GenerationJob.updated_at) := by
  cases cap with
  | error e =>
    refine ⟨Or.inr ⟨1, by simp [statusChain], ?_⟩, ?_, ?_⟩
    · simp [pipelineTrace, statusChain, h0]
    · intro s hs
      simp [pipelineTrace, h0] at hs
      rcases hs with rfl | rfl <;> exact ⟨by decide, by decide⟩
    · simp [pipelineTrace, List.chain'_cons]
      omega
  | ok sd =>
    refine ⟨Or.inl ?_, ?_, ?_⟩
    · simp [pipelineTrace, statusChain, h0]
    · intro s hs
      simp [pipelineTrace, h0] at hs
      rcases hs with rfl | rfl | rfl | rfl <;> exact ⟨by decide, by decide⟩
    · simp [pipelineTrace, List.chain'_cons]
      omega

/-- Instance of the supporting lemma at a concrete successful run. -/
theorem job_status_lifecycle_witness :
    j0Sample.status = JobStatus.pending ∧
    (((pipelineTrace (Except.ok sdSample) none 1 2 3 4 j0Sample).map
        GenerationJob.status = statusChain ∨
      ∃ k, k + 1 < statusChain.length ∧
        (pipelineTrace (Except.ok sdSample) none 1 2 3 4 j0Sample).map
          GenerationJob.status = statusChain.take (k + 1) ++ [JobStatus.failed]) ∧
    (∀ s ∈ ((pipelineTrace (Except.ok sdSample) none 1 2 3 4 j0Sample).map
        GenerationJob.status).dropLast,
      s ≠ JobStatus.completed ∧ s ≠ JobStatus.failed) ∧
    List.Chain' (fun a b => a ≤ b)
      (j0Sample.created_at ::
        (pipelineTrace (Except.ok sdSample) none 1 2 3 4 j0Sample).map
          GenerationJob.updated_at)) :=
  ⟨rfl, job_status_lifecycle (Except.ok sdSample) none 1 2 3 4 j0Sample rfl rfl
    (by decide) (by decide) (by decide) (by decide)⟩

/-- A job created on a host five hours west of UTC: `datetime.utcnow()` in
`GenerationJob.__init__` reads 1200 (minutes past UTC midnight) while the
local clock `datetime.now()` that stamps the transitions reads 900. -/
def jUtcSample : GenerationJob :=
  { status := .pending, generated_html := none, error_message := none,
    created_at := 1200, updated_at := 1200 }

/-- C1: the status-sequence half of the claim holds on this run, but the
timestamp half is a code bug: `created_at` is stamped with
`datetime.utcnow()` and the transitions with `datetime.now()`, so on a host
west of UTC the first transition's `updated_at` (900) precedes `created_at`
(1200) and the claimed non-decreasing chain starting from `created_at`
fails. -/
theorem job_clock_mix_failing_run :
    (pipelineTrace (Except.ok sdSample) none 900 901 902 903 jUtcSample).map
        GenerationJob.status = statusChain ∧
    (pipelineTrace (Except.ok sdSample) none 900 901 902 903 jUtcSample).map
        GenerationJob.updated_at = [1200, 900, 901, 902, 903] ∧
    ¬ List.Chain' (fun a b => a ≤ b)
      (jUtcSample.created_at ::
        (pipelineTrace (Except.ok sdSample) none 900 901 902 903 jUtcSample).map
          GenerationJob.updated_at) := by
  refine ⟨by decide, by decide, ?_⟩
  intro hchain
  simp [pipelineTrace, jUtcSample, List.chain'_cons] at hchain

/-- C3: a job ends FAILED exactly when capture raised, and then its error
message is the (non-empty) exception text; a model-generation failure does not
fail the job — it completes with the orchestrator's fallback HTML; and a
COMPLETED job always carries non-empty HTML. -/
theorem pipeline_failure_completion (cap : Except (List Char) ScrapedData)
    (llm : Option (Except (List Char) (List Char))) (t1 t2 t3 t4 : Nat)
    (j0 : GenerationJob)
    (hmsg : ∀ e, cap = Except.error e → e ≠ []) :
    ((pipelineFinal cap llm t1 t2 t3 t4 j0).status = JobStatus.failed ↔
      ∃ e, cap = Except.error e) ∧
    ((pipelineFinal cap llm t1 t2 t3 t4 j0).status = JobStatus.failed →
      ∃ e, (pipelineFinal cap llm t1 t2 t3 t4 j0).error_message = some e ∧ e ≠ []) ∧
    ((pipelineFinal cap llm t1 t2 t3 t4 j0).status = JobStatus.completed →
      ∃ h, (pipelineFinal cap llm t1 t2 t3 t4 j0).generated_html = some h ∧ h ≠ []) ∧
    (∀ sd err, cap = Except.ok sd → llm = some (Except.error err) →
      (pipelineFinal cap llm t1 t2 t3 t4 j0).status = JobStatus.completed ∧
      (pipelineFinal cap llm t1 t2 t3 t4 j0).generated_html =
        some (create_enhanced_html sd)) := by
  cases cap with
  | error e =>
    refine ⟨⟨fun _ => ⟨e, rfl⟩, fun _ => ?_⟩, fun _ => ⟨e, ?_, hmsg e rfl⟩, ?_, ?_⟩
    · simp [pipelineFinal, pipelineTrace]
    · simp [pipelineFinal, pipelineTrace]
    · intro hcomp
      simp [pipelineFinal, pipelineTrace] at hcomp
    · intro sd err hcap
      simp at hcap
  | ok sd =>
    refine ⟨⟨fun hf => ?_, fun hex => ?_⟩, fun hf => ?_, fun hcomp => ?_, ?_⟩
    · simp [pipelineFinal, pipelineTrace] at hf
    · obtain ⟨e, he⟩ := hex
      simp at he
    · simp [pipelineFinal, pipelineTrace] at hf
    · cases llm with
      | none =>
        exact ⟨create_enhanced_html sd, by simp [pipelineFinal, pipelineTrace],
          create_enhanced_html_ne_nil sd⟩
      | some res =>
        cases res with
        | ok raw =>
          exact ⟨extract_html_code raw, by simp [pipelineFinal, pipelineTrace],
            (extract_html_code_total_aux raw).1⟩
        | error err =>
          exact ⟨create_enhanced_html sd, by simp [pipelineFinal, pipelineTrace],
            create_enhanced_html_ne_nil sd⟩
    · intro sd' err hcap hllm
      obtain rfl : sd = sd' := by simpa using hcap
      subst hllm
      exact ⟨by simp [pipelineFinal, pipelineTrace], by simp [pipelineFinal, pipelineTrace]⟩

/-- Witness for C3 at a concrete failed capture with a non-empty message and a
concrete generation failure that still completes. -/
theorem pipeline_failure_completion_witness :
    (∀ e, (Except.error ("Failed to scrape website: timeout".toList) :
        Except (List Char) ScrapedData) = Except.error e → e ≠ []) ∧
    ((pipelineFinal (Except.error ("Failed to scrape website: timeout".toList))
        none 1 2 3 4 j0Sample).status = JobStatus.failed ↔
      ∃ e, (Except.error ("Failed to scrape website: timeout".toList) :
        Except (List Char) ScrapedData) = Except.error e) ∧
    ((pipelineFinal (Except.error ("Failed to scrape website: timeout".toList))
        none 1 2 3 4 j0Sample).status = JobStatus.failed →
      ∃ e, (pipelineFinal (Except.error ("Failed to scrape website: timeout".toList))
        none 1 2 3 4 j0Sample).error_message = some e ∧ e ≠ []) := by
  have hm : ∀ e, (Except.error ("Failed to scrape website: timeout".toList) :
      Except (List Char) ScrapedData) = Except.error e → e ≠ [] := by
    intro e he
    injection he with h
    rw [← h]
    decide
  exact ⟨hm,
    (pipeline_failure_completion
      (Except.error ("Failed to scrape website: timeout".toList)) none 1 2 3 4 j0Sample
      hm).1,
    (pipeline_failure_completion
      (Except.error ("Failed to scrape website: timeout".toList)) none 1 2 3 4 j0Sample
      hm).2.1⟩

/-- C9 amended: with no model credential configured, a completed job stores the
output of the orchestrator's own `_create_enhanced_html` on the job's evidence
record — not the Generation Strategy's `_create_fallback_html`. -/
theorem no_credential_uses_enhanced_html (cap : Except (List Char) ScrapedData)
    (sd : ScrapedData) (t1 t2 t3 t4 : Nat) (j0 : GenerationJob)
    (hcap : cap = Except.ok sd) :
    (pipelineFinal cap none t1 t2 t3 t4 j0).status = JobStatus.completed ∧
    (pipelineFinal cap none t1 t2 t3 t4 j0).generated_html =
      some (create_enhanced_html sd) := by
  subst hcap
  exact ⟨by simp [pipelineFinal, pipelineTrace], by simp [pipelineFinal, pipelineTrace]⟩

/-- Witness for the amended C9 at the scenario-C evidence record. -/
theorem no_credential_uses_enhanced_html_witness :
    (Except.ok (toScrapedData rAcme) : Except (List Char) ScrapedData) =
      Except.ok (toScrapedData rAcme) ∧
    (pipelineFinal (Except.ok (toScrapedData rAcme)) none 1 2 3 4 j0Sample).status =
      JobStatus.completed ∧
    (pipelineFinal (Except.ok (toScrapedData rAcme)) none 1 2 3 4 j0Sample).generated_html =
      some (create_enhanced_html (toScrapedData rAcme)) :=
  ⟨rfl,
    (no_credential_uses_enhanced_html (Except.ok (toScrapedData rAcme))
      (toScrapedData rAcme) 1 2 3 4 j0Sample rfl).1,
    (no_credential_uses_enhanced_html (Except.ok (toScrapedData rAcme))
      (toScrapedData rAcme) 1 2 3 4 j0Sample rfl).2⟩

set_option maxRecDepth 8000 in
/-- C9 counterexample: with no credential, the completed job's HTML for the
scenario-C evidence differs from `_create_fallback_html`'s output on the same
evidence — the non-AI path and the strategy's terminal fallback are different
generators producing different documents. -/
theorem no_credential_fallback_mismatch :
    (pipelineFinal (Except.ok (toScrapedData rAcme)) none 1 2 3 4 j0Sample).status =
      JobStatus.completed ∧
    (create_fallback_html rAcme).toOption.isSome = true ∧
    (pipelineFinal (Except.ok (toScrapedData rAcme)) none 1 2 3 4
        j0Sample).generated_html ≠ (create_fallback_html rAcme).toOption := by
  refine ⟨by decide, by decide, by decide⟩

/-! ## Generation strategy: multi-screenshot request pattern -/

/-- C6: for evidence with a screenshot sequence of more than one image, the
strategy issues exactly one model request embedding all images in capture
order; only if that request fails does exactly one follow-up single-image
request using the image at index 0 follow. -/
theorem multi_screenshot_single_request
    (call : ModelRequest → Except (List Char) (List Char))
    (convert : List Char → Option (List Char))
    (decode : List Char → Option (Nat × Nat)) (r : ScrapedDict)
    (s0 s1 : List Char) (rest : List (List Char))
    (hfps : r.full_page_screenshots = some (s0 :: s1 :: rest)) :
    (generate_html_clone call convert decode r).2 =
      ModelRequest.multiImage (s0 :: s1 :: rest) ::
        (match call (ModelRequest.multiImage (s0 :: s1 :: rest)) with
         | Except.ok _ => []
         | Except.error _ => [ModelRequest.singleImage s0]) := by
  have hsel : get_best_visual_input decode r = .screenshots (s0 :: s1 :: rest) := by
    simp [get_best_visual_input, hfps]
  have hlen : (s0 :: s1 :: rest).length > 1 := by simp
  simp only [generate_html_clone, hsel, direct_visual_clone, if_pos hlen,
    process_multiple_screenshots]
  cases hc : call (.multiImage (s0 :: s1 :: rest)) with
  | ok t => rfl
  | error e =>
    simp only [process_image_input]
    cases hs : call (.singleImage s0) <;> rfl

/-- A model oracle whose multi-image request fails and whose single-image
request succeeds. -/
def callMultiFails : ModelRequest → Except (List Char) (List Char)
  | .multiImage _ => .error ("overloaded".toList)
  | _ => .ok ("<html>ok</html>".toList)

/-- A PDF conversion oracle that is unavailable. -/
def convertNone : List Char → Option (List Char) := fun _ => none

/-- A record carrying a two-image screenshot sequence. -/
def rMulti : ScrapedDict :=
  { url := ("u".toList), title := PyField.absent,
    full_page_screenshots := some [("A".toList), ("B".toList)], pdf_base64 := none,
    screenshot_base64 := none, screenshot_hero := none,
    color_palette := PyField.absent, fonts := PyField.absent }

/-- Witness for C6: with the multi-image request failing, the request log is
exactly the multi-image request followed by one single-image request on the
first image. -/
theorem multi_screenshot_single_request_witness :
    rMulti.full_page_screenshots = some [("A".toList), ("B".toList)] ∧
    (generate_html_clone callMultiFails convertNone decodeAllSmall rMulti).2 =
      [ModelRequest.multiImage [("A".toList), ("B".toList)],
        ModelRequest.singleImage ("A".toList)] := by
  refine ⟨rfl, ?_⟩
  have h := multi_screenshot_single_request callMultiFails convertNone decodeAllSmall
    rMulti ("A".toList) ("B".toList) [] rfl
  simpa [callMultiFails] using h
